import Mathlib

/-
  Verification development for the Kustomer agent-performance export scripts.

  The repository contains three near-identical batch scripts:
    * src/unnamed/part_000  (the updated variant with team attribution),
    * src/main.py           (plain-dict variant with pre-created accumulators),
    * src/main2.py          (defaultdict variant without team attribution).

  We shallowly embed the metric-aggregation core of these scripts: raw API
  records become Lean structures whose fields model the flat key, the nested
  attributes key and the nested relationships path of each field of interest;
  Python truthiness and or-chains are modelled explicitly; the per-entity
  accumulator map (a Python dict / defaultdict) becomes an association list
  keyed by entity id, preserving insertion order.  Numeric samples and derived
  metrics are rationals; Python round(x, 2) is modelled by half-even rounding
  at two decimals.  Python KeyError is modelled with Except.
-/

namespace Kustomer

/-- A JSON-ish Python value as far as the scripts inspect one: null (absent or
None), a number, a string, a boolean, or a list of id strings. -/
inductive Val where
  | null : Val
  | num (q : ℚ) : Val
  | str (s : String) : Val
  | bool (b : Bool) : Val
  | list (l : List String) : Val
deriving DecidableEq

/-- Python truthiness of a value: None, 0, False, empty string and empty list
are falsy, everything else is truthy. -/
def Val.truthy : Val → Bool
  | .null => false
  | .num q => q != 0
  | .str s => s != ""
  | .bool b => b
  | .list l => !l.isEmpty

/-- Python or-chain on two values: the first operand wins exactly when it is
truthy, otherwise the second operand is returned as is. -/
def pyOr (a b : Val) : Val := if a.truthy then a else b

/-- Python or-chain on two optional strings (absent keys give None, which is
falsy, and the empty string is falsy as well). -/
def pyOrS (a b : Option String) : Option String :=
  match a with
  | some s => if s = "" then b else some s
  | none => b

/-- Python or-chain on three optional strings. -/
def pyOrS3 (a b c : Option String) : Option String := pyOrS a (pyOrS b c)

/-- Python truthiness of an optional string. -/
def optTruthy : Option String → Bool
  | some s => s != ""
  | none => false

/-- Python isinstance(x, (int, float)) view of a value: numbers are numeric and
booleans count as ints (True is 1, False is 0); everything else is rejected. -/
def Val.asNum : Val → Option ℚ
  | .num q => some q
  | .bool b => some (if b then 1 else 0)
  | _ => none

/-- Python comparison value > 0, defined on numeric values (the scripts only
reach this comparison with numeric counts; a non-numeric operand would raise
TypeError in Python and is modelled as a failed comparison). -/
def valGt0 : Val → Bool
  | .num q => 0 < q
  | .bool b => b
  | _ => false

/-- Python comparison value <= 0 on numeric values, same convention as valGt0. -/
def valLe0 : Val → Bool
  | .num q => q ≤ 0
  | .bool b => !b
  | _ => false

/-- The attribution-relevant shape of an event record, as read by
get_agent_or_team_id in src/unnamed/part_000 lines 103-120: the
relationships.createdBy.data.id path when the createdBy relationship key is
present, the flat createdBy key, the relationships.createdByTeams.data id list
when that relationship key is present, and the flat createdByTeams list. -/
structure Attrib where
  relCreatedBy : Option String
  flatCreatedBy : Option String
  relCreatedByTeams : Option (List String)
  flatCreatedByTeams : Option (List String)
deriving DecidableEq

/-- Embedding of get_agent_or_team_id (src/unnamed/part_000 lines 103-120):
try the createdBy relationship, then the flat createdBy key, returning kind
"user"; failing both, try the createdByTeams relationship and then the flat
createdByTeams key, taking the first team and returning kind "team"; note the
Python elif makes an empty relationship team list fall through to the final
return None, None rather than to the flat key. -/
def get_agent_or_team_id (item : Attrib) : Option (String × String) :=
  match item.relCreatedBy with
  | some i => some (i, "user")
  | none =>
    match item.flatCreatedBy with
    | some i => some (i, "user")
    | none =>
      match item.relCreatedByTeams with
      | some [] => none
      | some (t :: _) => some (t, "team")
      | none =>
        match item.flatCreatedByTeams with
        | some [] => none
        | some (t :: _) => some (t, "team")
        | none => none

/-- The per-entity metric accumulator of src/unnamed/part_000 lines 254-268
(the defaultdict bucket): message count, distinct conversation and customer id
sets, done-conversation count, the four sample sequences, shortcut count, FCR
hit and eligible counts, logged-in seconds and the entity kind. -/
structure Stats where
  msgs : ℕ
  conv : Finset String
  cust : Finset String
  conv_done : ℕ
  handle_times : List ℚ
  resp_times : List ℚ
  first_resp_times : List ℚ
  first_resolution_times : List ℚ
  shortcuts : ℕ
  fcr_hits : ℕ
  fcr_total : ℕ
  login : ℚ
  type : String
deriving DecidableEq

/-- The defaultdict default bucket: all counters zero, all sets and sample
lists empty, kind initialised to "user" as in the source. -/
def initStats : Stats :=
  { msgs := 0, conv := ∅, cust := ∅, conv_done := 0, handle_times := []
    resp_times := [], first_resp_times := [], first_resolution_times := []
    shortcuts := 0, fcr_hits := 0, fcr_total := 0, login := 0, type := "user" }

/-- Association-list lookup, modelling Python dict access by key. -/
def lookupS {α : Type} : List (String × α) → String → Option α
  | [], _ => none
  | (k, v) :: rest, id => if k = id then some v else lookupS rest id

/-- Association-list store, modelling Python dict assignment: replace the
value at an existing key in place, otherwise append at the end (dicts preserve
insertion order). -/
def setS {α : Type} : List (String × α) → String → α → List (String × α)
  | [], id, v => [(id, v)]
  | (k, w) :: rest, id, v =>
      if k = id then (k, v) :: rest else (k, w) :: setS rest id v

/-- Defaultdict read: the stored bucket if the key exists, the default bucket
otherwise (reading stats[agent_id] creates the default entry, and every read
in the scripts is immediately followed by writes, so read-default-then-store
is an exact model). -/
def getS (m : List (String × Stats)) (id : String) : Stats :=
  (lookupS m id).getD initStats

/-- Half-even integer rounding of a rational, the rounding used by the Python
built-in round. -/
def roundHalfEven (q : ℚ) : ℤ :=
  let f := ⌊q⌋
  let r := q - f
  if r < 1/2 then f
  else if 1/2 < r then f + 1
  else if 2 ∣ f then f else f + 1

/-- Python round(x, 2): half-even rounding at two decimal places. -/
def round2 (q : ℚ) : ℚ := (roundHalfEven (q * 100) : ℚ) / 100

/-- Mean of a list of rationals, as statistics.mean (call sites guard against
the empty list, on which statistics.mean would raise). -/
def meanQ (l : List ℚ) : ℚ := l.sum / (l.length : ℚ)

/-- Median of a list of rationals, as statistics.median: sort, take the middle
element for odd length, the mean of the two middle elements for even length
(call sites guard against the empty list, on which Python would raise). -/
def medianQ (l : List ℚ) : ℚ :=
  let s := List.insertionSort (· ≤ ·) l
  let n := l.length
  if n % 2 = 1 then s.getD (n / 2) 0
  else (s.getD (n / 2 - 1) 0 + s.getD (n / 2) 0) / 2

/-- A message record as read by the message fold of src/unnamed/part_000 lines
272-316: attribution fields, direction and auto flags (flat and under
attributes; the auto lookup checks key presence, hence the extra flag),
conversation and customer ids (flat and relationship path), the
responseBusinessTime value (flat and under attributes) and the three shortcut
indicator fields. -/
structure Msg where
  attrib : Attrib
  flatDirection : Option String
  attrDirection : Option String
  autoPresent : Bool
  flatAuto : Val
  attrAuto : Val
  flatConversationId : Option String
  relConversationId : Option String
  flatCustomerId : Option String
  relCustomerId : Option String
  flatRespBT : Val
  attrRespBT : Val
  flatShortcuts : Val
  attrShortcuts : Val
  attrShortcutIds : Val
deriving DecidableEq

/-- The auto-flag lookup of part_000 line 275: the flat value when the flat
key is present (even if falsy), otherwise the attributes value. -/
def msgAuto (e : Msg) : Val := if e.autoPresent then e.flatAuto else e.attrAuto

/-- The direction lookup of part_000 line 274: flat key or-chained with the
attributes key. -/
def msgDirection (e : Msg) : Option String := pyOrS e.flatDirection e.attrDirection

/-- The responseBusinessTime lookup of part_000 lines 306-307: flat key
or-chained with the attributes key. -/
def msgRespBT (e : Msg) : Val := pyOr e.flatRespBT e.attrRespBT

/-- The shortcut lookup of part_000 lines 312-314: shortcuts flat, shortcuts
under attributes, shortcutIds under attributes, or-chained. -/
def msgShortcutVal (e : Msg) : Val :=
  pyOr (pyOr e.flatShortcuts e.attrShortcuts) e.attrShortcutIds

/-- The resolved conversation id of part_000 lines 295-297 (flat key or the
conversation relationship), kept only when truthy. -/
def msgConvId (e : Msg) : Option String :=
  let c := pyOrS e.flatConversationId e.relConversationId
  if optTruthy c then c else none

/-- The resolved customer id of part_000 lines 300-302, kept only when truthy. -/
def msgCustId (e : Msg) : Option String :=
  let c := pyOrS e.flatCustomerId e.relCustomerId
  if optTruthy c then c else none

/-- The continue-chain of the message fold (part_000 lines 274-288) collapsed
to the entity the event contributes to: none when the message is skipped
(wrong direction, automated, unattributable, empty id, or owner unknown to the
user/team map for its kind), and the resolved id with its kind otherwise. -/
def msgOwner (umap tmap : List String) (e : Msg) : Option (String × String) :=
  if msgDirection e ≠ some "out" ∨ (msgAuto e).truthy then none
  else
    match get_agent_or_team_id e.attrib with
    | none => none
    | some (aid, aty) =>
      if aid = "" then none
      else if aty = "user" ∧ aid ∉ umap then none
      else if aty = "team" ∧ aid ∉ tmap then none
      else some (aid, aty)

/-- The accumulator updates of part_000 lines 290-316 for one qualifying
message: set the kind, count the message, add truthy conversation and customer
ids to the distinct sets, append a numeric responseBusinessTime sample, and
count the message as a shortcut message when any shortcut indicator is truthy. -/
def msgUpdate (e : Msg) (aty : String) (s : Stats) : Stats :=
  let s := { s with type := aty, msgs := s.msgs + 1 }
  let s := match msgConvId e with
    | some c => { s with conv := insert c s.conv }
    | none => s
  let s := match msgCustId e with
    | some c => { s with cust := insert c s.cust }
    | none => s
  let s := match (msgRespBT e).asNum with
    | some q => { s with resp_times := s.resp_times ++ [q] }
    | none => s
  if (msgShortcutVal e).truthy then { s with shortcuts := s.shortcuts + 1 } else s

/-- One iteration of the message fold of part_000 lines 272-316. -/
def stepMsg (umap tmap : List String) (m : List (String × Stats)) (e : Msg) :
    List (String × Stats) :=
  match msgOwner umap tmap e with
  | none => m
  | some (aid, aty) => setS m aid (msgUpdate e aty (getS m aid))

/-- A done-conversation record as read by part_000 lines 320-338: the deleted
flag, the flat messageCount (defaulted to 0), and lastDone.createdBy. -/
structure ConvDone where
  deleted : Bool
  messageCount : ℤ
  lastDoneCreatedBy : Option String
deriving DecidableEq

/-- The continue-chain of the done-conversation fold (part_000 lines 321-334)
collapsed to the contributing entity: the record must not be deleted, must
have a positive message count and a truthy lastDone.createdBy, which is then
wrapped into a createdBy relationship and resolved by get_agent_or_team_id,
followed by the id and directory-membership guards. -/
def cdOwner (umap tmap : List String) (c : ConvDone) : Option (String × String) :=
  if c.deleted ∨ c.messageCount ≤ 0 then none
  else
    let res := match c.lastDoneCreatedBy with
      | some cb =>
          if cb ≠ "" then
            get_agent_or_team_id
              { relCreatedBy := some cb, flatCreatedBy := none
                relCreatedByTeams := none, flatCreatedByTeams := none }
          else none
      | none => none
    match res with
    | none => none
    | some (aid, aty) =>
      if aid = "" then none
      else if aty = "user" ∧ aid ∉ umap then none
      else if aty = "team" ∧ aid ∉ tmap then none
      else some (aid, aty)

/-- One iteration of the done-conversation fold of part_000 lines 320-338:
set the kind and count the done conversation. -/
def stepConvDone (umap tmap : List String) (m : List (String × Stats))
    (c : ConvDone) : List (String × Stats) :=
  match cdOwner umap tmap c with
  | none => m
  | some (aid, aty) =>
      let s := getS m aid
      setS m aid { s with type := aty, conv_done := s.conv_done + 1 }

/-- A conversation-time record as read by part_000 lines 342-356: attribution
fields plus the handleTime value, flat and under attributes. -/
structure ConvTime where
  attrib : Attrib
  flatHandleTime : Val
  attrHandleTime : Val
deriving DecidableEq

/-- The continue-chain of the conversation-time fold (part_000 lines 342-356)
collapsed to the write it performs: the resolved directory-known owner and the
numeric handle-time sample; the accumulator is touched only when the
handle-time value is numeric, since the store sits inside the isinstance
block. -/
def ctWrite (umap tmap : List String) (e : ConvTime) :
    Option (String × String × ℚ) :=
  match get_agent_or_team_id e.attrib with
  | none => none
  | some (aid, aty) =>
    if aid = "" then none
    else if aty = "user" ∧ aid ∉ umap then none
    else if aty = "team" ∧ aid ∉ tmap then none
    else
      match (pyOr e.flatHandleTime e.attrHandleTime).asNum with
      | some q => some (aid, aty, q)
      | none => none

/-- One iteration of the conversation-time fold of part_000 lines 342-356. -/
def stepConvTime (umap tmap : List String) (m : List (String × Stats))
    (e : ConvTime) : List (String × Stats) :=
  match ctWrite umap tmap e with
  | none => m
  | some (aid, aty, q) =>
      let s := getS m aid
      setS m aid { s with type := aty, handle_times := s.handle_times ++ [q] }

/-- The firstDone sub-record of a first-done conversation (part_000 lines
365-391): its createdBy, its createdByTeams id list and its businessTime. -/
structure FD where
  createdBy : Option String
  createdByTeams : List String
  businessTime : Val
deriving DecidableEq

/-- A first-done conversation record as read by the FCR fold of part_000 lines
361-425: the firstDone sub-record (flat and under attributes, and the
firstDoneBy fallback fields), and the FCR criterion fields status, direction,
messageCount, reopenCount and mergedTarget in their flat and attributes
shapes; for messageCount and reopenCount the attributes lookup carries a
default of 0, so the presence of the attributes key is tracked. -/
structure ConvFD where
  flatFirstDone : Option FD
  attrFirstDone : Option FD
  flatFirstDoneBy : Option String
  attrFirstDoneBy : Option String
  flatStatus : Option String
  attrStatus : Option String
  flatDirection : Option String
  attrDirection : Option String
  flatMessageCount : Val
  attrMessageCountPresent : Bool
  attrMessageCount : Val
  flatReopenCount : Val
  attrReopenCountPresent : Bool
  attrReopenCount : Val
  flatMergedTarget : Val
  attrMergedTarget : Val
deriving DecidableEq

/-- The firstDone extraction chain of part_000 lines 365-376: the flat
firstDone if non-empty, then the attributes firstDone, then a synthetic
record built from a truthy firstDoneBy lookup; none models both an absent and
an empty (falsy) firstDone dict. -/
def fdOf (c : ConvFD) : Option FD :=
  match c.flatFirstDone with
  | some fd => some fd
  | none =>
    match c.attrFirstDone with
    | some fd => some fd
    | none =>
      match pyOrS c.flatFirstDoneBy c.attrFirstDoneBy with
      | some b =>
          if b ≠ "" then some { createdBy := some b, createdByTeams := [], businessTime := Val.null }
          else none
      | none => none

/-- The owner extraction of part_000 lines 380-391: a truthy
firstDone.createdBy gives kind "user"; failing that a non-empty
firstDone.createdByTeams gives its first team with kind "team". -/
def fcrOwner (fd : FD) : Option (String × String) :=
  if optTruthy fd.createdBy then some (fd.createdBy.getD "", "user")
  else
    match fd.createdByTeams with
    | [] => none
    | t :: _ => some (t, "team")

/-- The messageCount lookup of part_000 line 410: flat value or-chained with
the attributes value, the attributes lookup defaulting to 0. -/
def fcrMessageCount (c : ConvFD) : Val :=
  pyOr c.flatMessageCount
    (if c.attrMessageCountPresent then c.attrMessageCount else Val.num 0)

/-- The reopenCount lookup of part_000 line 411, same shape as the
messageCount lookup. -/
def fcrReopenCount (c : ConvFD) : Val :=
  pyOr c.flatReopenCount
    (if c.attrReopenCountPresent then c.attrReopenCount else Val.num 0)

/-- The FCR hit criterion of part_000 lines 414-418: status "done", direction
"in", positive message count, reopen count at most 0, and no truthy merge
target. -/
def fcrHitCond (c : ConvFD) : Bool :=
  (pyOrS c.flatStatus c.attrStatus == some "done") &&
  (pyOrS c.flatDirection c.attrDirection == some "in") &&
  valGt0 (fcrMessageCount c) &&
  valLe0 (fcrReopenCount c) &&
  !(pyOr c.flatMergedTarget c.attrMergedTarget).truthy

/-- The continue-chain of the FCR fold (part_000 lines 361-399) collapsed to
the contributing entity and its firstDone record. -/
def fcrResolved (umap tmap : List String) (c : ConvFD) :
    Option (String × String × FD) :=
  match fdOf c with
  | none => none
  | some fd =>
    match fcrOwner fd with
    | none => none
    | some (aid, aty) =>
      if aid = "" then none
      else if aty = "user" ∧ aid ∉ umap then none
      else if aty = "team" ∧ aid ∉ tmap then none
      else some (aid, aty, fd)

/-- The accumulator updates of part_000 lines 401-425 for one first-done
conversation: set the kind, count the conversation as FCR-eligible, count a
hit when the criterion holds, and append a numeric firstDone businessTime
sample to the first-resolution samples. -/
def fcrUpdate (c : ConvFD) (fd : FD) (aty : String) (s : Stats) : Stats :=
  let s := { s with type := aty, fcr_total := s.fcr_total + 1 }
  let s := if fcrHitCond c then { s with fcr_hits := s.fcr_hits + 1 } else s
  match fd.businessTime.asNum with
  | some q => { s with first_resolution_times := s.first_resolution_times ++ [q] }
  | none => s

/-- One iteration of the FCR fold of part_000 lines 361-425. -/
def stepFCR (umap tmap : List String) (m : List (String × Stats)) (c : ConvFD) :
    List (String × Stats) :=
  match fcrResolved umap tmap c with
  | none => m
  | some (aid, aty, fd) => setS m aid (fcrUpdate c fd aty (getS m aid))

/-- A first-response conversation record as read by part_000 lines 429-451:
the deleted flag, the flat messageCount (defaulted to 0), and the
firstResponse sub-record with its createdBy and businessTime; none models an
absent or empty (falsy) firstResponse dict. -/
structure ConvFR where
  deleted : Bool
  messageCount : ℤ
  frCreatedBy : Option String
  frBusinessTime : Val
  frPresent : Bool
deriving DecidableEq

/-- The continue-chain of the first-response fold (part_000 lines 429-451)
collapsed to the write it performs: deleted or message-less records are
skipped, a truthy firstResponse.createdBy is wrapped into a createdBy
relationship and resolved, the owner must be directory-known, and the
accumulator is touched only when the businessTime is numeric. -/
def frWrite (umap tmap : List String) (c : ConvFR) :
    Option (String × String × ℚ) :=
  if c.deleted ∨ c.messageCount ≤ 0 then none
  else if !c.frPresent then none
  else
    let res := match c.frCreatedBy with
      | some cb =>
          if cb ≠ "" then
            get_agent_or_team_id
              { relCreatedBy := some cb, flatCreatedBy := none
                relCreatedByTeams := none, flatCreatedByTeams := none }
          else none
      | none => none
    match res with
    | none => none
    | some (aid, aty) =>
      if aid = "" then none
      else if aty = "user" ∧ aid ∉ umap then none
      else if aty = "team" ∧ aid ∉ tmap then none
      else
        match c.frBusinessTime.asNum with
        | some q => some (aid, aty, q)
        | none => none

/-- One iteration of the first-response fold of part_000 lines 429-451. -/
def stepFR (umap tmap : List String) (m : List (String × Stats)) (c : ConvFR) :
    List (String × Stats) :=
  match frWrite umap tmap c with
  | none => m
  | some (aid, aty, q) =>
      let s := getS m aid
      setS m aid { s with type := aty, first_resp_times := s.first_resp_times ++ [q] }

/-- The complete aggregation pass of src/unnamed/part_000: fold the five event
streams, in the order of the script, into the initially empty defaultdict. -/
def runPart000 (umap tmap : List String) (msgs : List Msg) (cds : List ConvDone)
    (cts : List ConvTime) (fds : List ConvFD) (frs : List ConvFR) :
    List (String × Stats) :=
  let m := msgs.foldl (stepMsg umap tmap) []
  let m := cds.foldl (stepConvDone umap tmap) m
  let m := cts.foldl (stepConvTime umap tmap) m
  let m := fds.foldl (stepFCR umap tmap) m
  frs.foldl (stepFR umap tmap) m

/-- One output row of the CSV export, with display names identified with raw
ids (the scripts only use the directory to pretty-print the id; no claim
depends on names). -/
structure Row where
  id : String
  type : String
  msgs : ℕ
  conv_ct : ℕ
  conv_done : ℕ
  cust_ct : ℕ
  avg_handle_time : ℚ
  avg_msgs_per_conv : ℚ
  avg_msgs_per_cust : ℚ
  fcr_rate_pct : ℚ
  avg_resp_time : ℚ
  avg_first_resp : ℚ
  med_first_resp : ℚ
  avg_first_resolution : ℚ
  med_first_resolution : ℚ
  login : ℚ
  shortcuts : ℕ
  shortcut_pct : ℚ
deriving DecidableEq

/-- The derived-metric row of the CSV export loop of part_000 lines 503-532:
every ratio and mean is guarded by its denominator count or sample list and
yields 0 on the empty case; the handle-time column is the rounded mean of the
handle-time samples, guarded by the sample list. -/
def buildRow (aid : String) (s : Stats) : Row :=
  let conv_ct := s.conv.card
  let cust_ct := s.cust.card
  { id := aid
    type := s.type
    msgs := s.msgs
    conv_ct := conv_ct
    conv_done := s.conv_done
    cust_ct := cust_ct
    avg_handle_time := if s.handle_times ≠ [] then round2 (meanQ s.handle_times) else 0
    avg_msgs_per_conv := if conv_ct ≠ 0 then round2 ((s.msgs : ℚ) / (conv_ct : ℚ)) else 0
    avg_msgs_per_cust := if cust_ct ≠ 0 then round2 ((s.msgs : ℚ) / (cust_ct : ℚ)) else 0
    fcr_rate_pct := if s.fcr_total ≠ 0 then round2 ((s.fcr_hits : ℚ) / (s.fcr_total : ℚ) * 100) else 0
    avg_resp_time := if s.resp_times ≠ [] then round2 (meanQ s.resp_times) else 0
    avg_first_resp := if s.first_resp_times ≠ [] then round2 (meanQ s.first_resp_times) else 0
    med_first_resp := if s.first_resp_times ≠ [] then round2 (medianQ s.first_resp_times) else 0
    avg_first_resolution := if s.first_resolution_times ≠ [] then round2 (meanQ s.first_resolution_times) else 0
    med_first_resolution := if s.first_resolution_times ≠ [] then round2 (medianQ s.first_resolution_times) else 0
    login := round2 s.login
    shortcuts := s.shortcuts
    shortcut_pct := if s.msgs ≠ 0 then round2 ((s.shortcuts : ℚ) / (s.msgs : ℚ) * 100) else 0 }

/-- The full report of src/unnamed/part_000: one row per accumulator entry, in
insertion order. -/
def reportPart000 (umap tmap : List String) (msgs : List Msg)
    (cds : List ConvDone) (cts : List ConvTime) (fds : List ConvFD)
    (frs : List ConvFR) : List Row :=
  (runPart000 umap tmap msgs cds cts fds frs).map (fun p => buildRow p.1 p.2)

/-- The per-agent accumulator of src/main.py lines 288-301. -/
structure StatsM where
  messages_sent : ℕ
  unique_conversations : Finset String
  unique_customers : Finset String
  conversations_done : ℕ
  conv_created_done : ℕ
  total_handle_time : ℚ
  first_response_times : List ℚ
  first_resolution_times : List ℚ
  messages_shortcut : ℕ
  fcr_count : ℕ
deriving DecidableEq

/-- The zero accumulator of src/main.py lines 290-301. -/
def initStatsM : StatsM :=
  { messages_sent := 0, unique_conversations := ∅, unique_customers := ∅
    conversations_done := 0, conv_created_done := 0, total_handle_time := 0
    first_response_times := [], first_resolution_times := []
    messages_shortcut := 0, fcr_count := 0 }

/-- The eager accumulator creation of src/main.py lines 288-301: one zero
bucket per directory agent, before any event is folded. -/
def initAgentStats (umap : List String) : List (String × StatsM) :=
  umap.map (fun id => (id, initStatsM))

/-- A message record as read by src/main.py sections 1 and 3 (lines 304-344
and 366-406): direction (attributes first, then flat, unlike part_000),
creator fields, conversation and customer ids, createdAt timestamps
(attributes and flat, modelled as rationals), and the shortcut indicator
fields of lines 338-343. -/
structure MsgM where
  attrDirection : Option String
  flatDirection : Option String
  relCreatedBy : Option String
  createdById : Option String
  ownerId : Option String
  flatConversationId : Option String
  relConversationId : Option String
  relCustomerId : Option String
  attrCreatedAt : Option ℚ
  flatCreatedAt : Option ℚ
  attrShortcutIds : Val
  flatShortcuts : Val
  flatShortcutId : Val
  via : Option String
deriving DecidableEq

/-- The direction lookup of main.py lines 306-309 and 381-386: the attributes
value or-chained with the flat value. -/
def msgMDirection (e : MsgM) : Option String := pyOrS e.attrDirection e.flatDirection

/-- The sender lookup of main.py lines 314-318 and 399-403: createdBy
relationship, then flat createdById, then flat ownerId. -/
def msgMSender (e : MsgM) : Option String :=
  pyOrS3 e.relCreatedBy e.createdById e.ownerId

/-- The conversation-id lookup of main.py lines 326-329 and 372-375: flat key
or the conversation relationship. -/
def msgMConvId (e : MsgM) : Option String :=
  pyOrS e.flatConversationId e.relConversationId

/-- The createdAt sort key of main.py line 379 (attributes value or flat
value); absent timestamps, on which the Python sort would raise, are read as
0. -/
def msgMCreatedAt (e : MsgM) : Option ℚ :=
  match e.attrCreatedAt with
  | some t => some t
  | none => e.flatCreatedAt

/-- The shortcut criterion of main.py lines 338-343: a truthy attributes
shortcutIds, flat shortcuts, flat shortcutId, or via equal to "shortcut". -/
def msgMShortcut (e : MsgM) : Bool :=
  e.attrShortcutIds.truthy || e.flatShortcuts.truthy || e.flatShortcutId.truthy ||
    (e.via == some "shortcut")

/-- One iteration of the message fold of main.py lines 305-344: outbound
messages from a directory-known sender count a message, add the conversation
id and the customer id (resolved from the merged conversation lookup, then
the customer relationship, and only inside the conversation-id branch), and
count a shortcut message when the criterion holds.  The accumulator map holds
every directory agent by construction, so the lookup cannot miss for a sender
that passed the membership guard; the impossible branch leaves the map
unchanged. -/
def stepMsgMain (umap : List String) (convData : List (String × String))
    (m : List (String × StatsM)) (e : MsgM) : List (String × StatsM) :=
  if msgMDirection e ≠ some "out" then m
  else
    match msgMSender e with
    | none => m
    | some snd =>
      if snd = "" ∨ snd ∉ umap then m
      else
        match lookupS m snd with
        | none => m
        | some s =>
          let s := { s with messages_sent := s.messages_sent + 1 }
          let s :=
            match msgMConvId e with
            | some cid =>
              if cid ≠ "" then
                let s := { s with unique_conversations := insert cid s.unique_conversations }
                match pyOrS (lookupS convData cid) e.relCustomerId with
                | some cu =>
                  if cu ≠ "" then { s with unique_customers := insert cu s.unique_customers } else s
                | none => s
              else s
            | none => s
          let s := if msgMShortcut e then { s with messages_shortcut := s.messages_shortcut + 1 } else s
          setS m snd s

/-- A done-conversation record as read by main.py lines 348-364: id, the
lastDoneById field (flat, then the lastDoneBy relationship), and the
handleTime value (flat and under attributes). -/
structure ConvDoneM where
  id : Option String
  lastDoneById : Option String
  relLastDoneBy : Option String
  flatHandleTime : Val
  attrHandleTime : Val
deriving DecidableEq

/-- One iteration of the conversation-resolutions fold of main.py lines
348-364.  The owner id is not checked against the directory: main.py indexes
the plain dict agent_stats directly, so an owner id outside the directory
raises KeyError, modelled as an error result that aborts the fold. -/
def stepConvDoneMain (createdIds : List String) (m : List (String × StatsM))
    (c : ConvDoneM) : Except String (List (String × StatsM)) :=
  match pyOrS c.lastDoneById c.relLastDoneBy with
  | none => .ok m
  | some aid =>
    if aid = "" then .ok m
    else
      match lookupS m aid with
      | none => .error ("KeyError: " ++ aid)
      | some s =>
        let s := { s with conversations_done := s.conversations_done + 1 }
        let s :=
          match c.id with
          | some i => if i ∈ createdIds then { s with conv_created_done := s.conv_created_done + 1 } else s
          | none => s
        let s :=
          match (pyOr c.flatHandleTime c.attrHandleTime).asNum with
          | some q => { s with total_handle_time := s.total_handle_time + q }
          | none => s
        .ok (setS m aid s)

/-- A created-conversation record as read by main.py lines 367-426: id,
createdAt, and the firstDone and lastDone fields used by the first-resolution
and FCR logic; timestamps are modelled as rationals. -/
structure ConvC where
  id : Option String
  createdAt : Option ℚ
  firstDoneAt : Option ℚ
  firstDoneById : Option String
  lastDoneAt : Option ℚ
  lastDoneById : Option String
deriving DecidableEq

/-- One iteration of the first-response and first-resolution fold of main.py
lines 367-426: collect the messages of the conversation, sort them by
createdAt, skip conversations opened by an outbound message, find the first
outbound response, and append its response latency to the responder; then,
when firstDoneAt and firstDoneById are set, append the first-resolution
latency to the resolver and count an FCR hit when the last done event equals
the first and was by the same resolver.  Both the responder and the resolver
index the plain dict agent_stats directly with no directory check, so an
unknown id raises KeyError, modelled as an error result. -/
def stepFRMain (messages : List MsgM) (m : List (String × StatsM)) (c : ConvC) :
    Except String (List (String × StatsM)) := do
  match c.id with
  | none => pure m
  | some cid =>
    if cid = "" then pure m
    else
      let convMsgs := messages.filter (fun e => msgMConvId e == some cid)
      if convMsgs.isEmpty then pure m
      else
        let sorted := List.insertionSort
          (fun a b => (msgMCreatedAt a).getD 0 ≤ (msgMCreatedAt b).getD 0) convMsgs
        match sorted with
        | [] => pure m
        | firstMsg :: _ =>
          if msgMDirection firstMsg = some "out" then pure m
          else
            let m1 ←
              match sorted.find? (fun e => msgMDirection e == some "out") with
              | none => pure m
              | some firstAgent =>
                let frt : Option ℚ :=
                  match msgMCreatedAt firstAgent, msgMCreatedAt firstMsg with
                  | some a, some b => some (a - b)
                  | _, _ => none
                match msgMSender firstAgent, frt with
                | some r, some f =>
                  if r ≠ "" then
                    match lookupS m r with
                    | none => Except.error ("KeyError: " ++ r)
                    | some s =>
                      pure (setS m r { s with first_response_times := s.first_response_times ++ [f] })
                  else pure m
                | _, _ => pure m
            match c.firstDoneAt, c.firstDoneById with
            | some fda, some resolver =>
              if resolver = "" then pure m1
              else
                let frtRes : Option ℚ :=
                  match c.createdAt with
                  | some ca => some (fda - ca)
                  | none => none
                match frtRes with
                | none => pure m1
                | some fr =>
                  match lookupS m1 resolver with
                  | none => Except.error ("KeyError: " ++ resolver)
                  | some s =>
                    let s := { s with first_resolution_times := s.first_resolution_times ++ [fr] }
                    let s :=
                      if c.lastDoneAt = c.firstDoneAt ∧ c.lastDoneById = some resolver then
                        { s with fcr_count := s.fcr_count + 1 }
                      else s
                    pure (setS m1 resolver s)
            | _, _ => pure m1

/-- The complete aggregation pass of src/main.py: pre-create the accumulators
for every directory agent, fold the message stream, then the done
conversations (created_ids taken from the truthy ids of the created
conversations), then the first-response and first-resolution fold; the merged
conversation lookup of lines 282-285 enters as the conversation-id to
customer-id association convData. -/
def runMain (umap : List String) (messages : List MsgM)
    (convsDone : List ConvDoneM) (convsCreated : List ConvC)
    (convData : List (String × String)) :
    Except String (List (String × StatsM)) := do
  let s0 := initAgentStats umap
  let s1 := messages.foldl (stepMsgMain umap convData) s0
  let createdIds := (convsCreated.filterMap (fun c => c.id)).filter (fun i => i ≠ "")
  let s2 ← convsDone.foldlM (fun m c => stepConvDoneMain createdIds m c) s1
  let s3 ← convsCreated.foldlM (fun m c => stepFRMain messages m c) s2
  pure s3

/-- One output row of the main.py CSV export (lines 450-469), display names
identified with ids. -/
structure RowM where
  id : String
  messages_sent : ℕ
  conv_ct : ℕ
  conversations_done : ℕ
  cust_ct : ℕ
  avg_handle_time : ℚ
  avg_msgs_per_conv : ℚ
  avg_msgs_per_cust : ℚ
  fcr_rate_pct : ℚ
  avg_first_resp : ℚ
  med_first_resp : ℚ
  avg_first_resolution : ℚ
  med_first_resolution : ℚ
  messages_shortcut : ℕ
  shortcut_pct : ℚ
deriving DecidableEq

/-- The derived-metric row of main.py lines 450-469: the handle-time column
divides the accumulated handle-time sum by the done-conversation count,
guarded by that count; the FCR column divides fcr_count by conv_created_done. -/
def buildRowMain (aid : String) (s : StatsM) : RowM :=
  let conv_ct := s.unique_conversations.card
  let cust_ct := s.unique_customers.card
  { id := aid
    messages_sent := s.messages_sent
    conv_ct := conv_ct
    conversations_done := s.conversations_done
    cust_ct := cust_ct
    avg_handle_time := if s.conversations_done ≠ 0 then round2 (s.total_handle_time / (s.conversations_done : ℚ)) else 0
    avg_msgs_per_conv := if conv_ct ≠ 0 then round2 ((s.messages_sent : ℚ) / (conv_ct : ℚ)) else 0
    avg_msgs_per_cust := if cust_ct ≠ 0 then round2 ((s.messages_sent : ℚ) / (cust_ct : ℚ)) else 0
    fcr_rate_pct := if s.conv_created_done ≠ 0 then round2 ((s.fcr_count : ℚ) / (s.conv_created_done : ℚ) * 100) else 0
    avg_first_resp := if s.first_response_times ≠ [] then round2 (meanQ s.first_response_times) else 0
    med_first_resp := if s.first_response_times ≠ [] then round2 (medianQ s.first_response_times) else 0
    avg_first_resolution := if s.first_resolution_times ≠ [] then round2 (meanQ s.first_resolution_times) else 0
    med_first_resolution := if s.first_resolution_times ≠ [] then round2 (medianQ s.first_resolution_times) else 0
    messages_shortcut := s.messages_shortcut
    shortcut_pct := if s.messages_sent ≠ 0 then round2 ((s.messages_shortcut : ℚ) / (s.messages_sent : ℚ) * 100) else 0 }

/-- The full report of src/main.py: one row per accumulator entry (which, by
the eager creation, means one row per directory agent). -/
def reportMain (umap : List String) (messages : List MsgM)
    (convsDone : List ConvDoneM) (convsCreated : List ConvC)
    (convData : List (String × String)) : Except String (List RowM) :=
  (runMain umap messages convsDone convsCreated convData).map
    (fun st => st.map (fun p => buildRowMain p.1 p.2))

/-
  Concrete records used to evaluate the model on explicit inputs.
-/

/-- An attribution record carrying only a flat createdBy id "X". -/
def attribFlatX : Attrib :=
  { relCreatedBy := none, flatCreatedBy := some "X"
    relCreatedByTeams := none, flatCreatedByTeams := none }

/-- An attribution record carrying only a createdByTeams relationship ["X"]. -/
def attribTeamX : Attrib :=
  { relCreatedBy := none, flatCreatedBy := none
    relCreatedByTeams := some ["X"], flatCreatedByTeams := none }

/-- An attribution record carrying only a flat createdBy id "A". -/
def attribFlatA : Attrib :=
  { relCreatedBy := none, flatCreatedBy := some "A"
    relCreatedByTeams := none, flatCreatedByTeams := none }

/-- A qualifying outbound non-automated message attributed to "X" with no
other payload. -/
def msgFromX : Msg :=
  { attrib := attribFlatX
    flatDirection := some "out", attrDirection := none
    autoPresent := false, flatAuto := .null, attrAuto := .null
    flatConversationId := none, relConversationId := none
    flatCustomerId := none, relCustomerId := none
    flatRespBT := .null, attrRespBT := .null
    flatShortcuts := .null, attrShortcuts := .null, attrShortcutIds := .null }

/-- A conversation-time entry attributed to team "X" with handle time 5. -/
def convTimeTeamX : ConvTime :=
  { attrib := attribTeamX, flatHandleTime := .num 5, attrHandleTime := .null }

/-- A done conversation resolved by "A" with one message. -/
def convDoneByA : ConvDone :=
  { deleted := false, messageCount := 1, lastDoneCreatedBy := some "A" }

/-- A conversation-time entry attributed to "A" with handle time 10. -/
def convTimeByA : ConvTime :=
  { attrib := attribFlatA, flatHandleTime := .num 10, attrHandleTime := .null }

/-- An outbound message from "A" whose flat responseBusinessTime is the falsy
number 0 while the attributes mapping carries 5. -/
def msgRespBTZero : Msg :=
  { attrib := attribFlatA
    flatDirection := some "out", attrDirection := none
    autoPresent := false, flatAuto := .null, attrAuto := .null
    flatConversationId := none, relConversationId := none
    flatCustomerId := none, relCustomerId := none
    flatRespBT := .num 0, attrRespBT := .num 5
    flatShortcuts := .null, attrShortcuts := .null, attrShortcutIds := .null }

/-- A firstDone record created by agent "A2". -/
def fdAgentA2 : FD :=
  { createdBy := some "A2", createdByTeams := [], businessTime := .null }

/-- A first-done conversation for "A2" meeting every FCR hit criterion. -/
def fcrScenarioHit : ConvFD :=
  { flatFirstDone := some fdAgentA2, attrFirstDone := none
    flatFirstDoneBy := none, attrFirstDoneBy := none
    flatStatus := some "done", attrStatus := none
    flatDirection := some "in", attrDirection := none
    flatMessageCount := .num 3, attrMessageCountPresent := false, attrMessageCount := .null
    flatReopenCount := .null, attrReopenCountPresent := false, attrReopenCount := .null
    flatMergedTarget := .null, attrMergedTarget := .null }

/-- The same first-done conversation with status "open", failing the FCR hit
criterion. -/
def fcrScenarioMiss : ConvFD := { fcrScenarioHit with flatStatus := some "open" }

/-- An inbound customer message in conversation "C1" at time 1 (main.py
shape). -/
def frMsgCustomer : MsgM :=
  { attrDirection := none, flatDirection := some "in"
    relCreatedBy := none, createdById := none, ownerId := none
    flatConversationId := some "C1", relConversationId := none, relCustomerId := none
    attrCreatedAt := none, flatCreatedAt := some 1
    attrShortcutIds := .null, flatShortcuts := .null, flatShortcutId := .null, via := none }

/-- An outbound response in conversation "C1" at time 2 whose creator "BOT"
is not in the agent directory (main.py shape). -/
def frMsgBot : MsgM :=
  { frMsgCustomer with
    flatDirection := some "out", relCreatedBy := some "BOT", flatCreatedAt := some 2 }

/-- The created conversation "C1" (main.py shape). -/
def frConvC1 : ConvC :=
  { id := some "C1", createdAt := some 0, firstDoneAt := none
    firstDoneById := none, lastDoneAt := none, lastDoneById := none }

/-- A message from "A" carrying conversation id "C1" and customer id "U1". -/
def msgConvC1 : Msg :=
  { attrib := attribFlatA
    flatDirection := some "out", attrDirection := none
    autoPresent := false, flatAuto := .null, attrAuto := .null
    flatConversationId := some "C1", relConversationId := none
    flatCustomerId := some "U1", relCustomerId := none
    flatRespBT := .null, attrRespBT := .null
    flatShortcuts := .null, attrShortcuts := .null, attrShortcutIds := .null }

/-
  Helper lemmas about the association-list accumulator map and rounding.
-/

theorem lookupS_setS_self {α : Type} (m : List (String × α)) (id : String) (v : α) :
    lookupS (setS m id v) id = some v := by
  induction m with
  | nil => simp [setS, lookupS]
  | cons p rest ih =>
    obtain ⟨k, w⟩ := p
    by_cases h : k = id <;> simp [setS, lookupS, h, ih]

theorem lookupS_setS_ne {α : Type} (m : List (String × α)) (id x : String) (v : α)
    (h : x ≠ id) : lookupS (setS m id v) x = lookupS m x := by
  induction m with
  | nil => simp [setS, lookupS, Ne.symm h]
  | cons p rest ih =>
    obtain ⟨k, w⟩ := p
    by_cases hk : k = id
    · have hkx : ¬ k = x := by rw [hk]; exact fun hh => h hh.symm
      simp [setS, lookupS, hk, hkx, Ne.symm h]
    · simp [setS, lookupS, hk, ih]

theorem lookupS_none_forall {α : Type} (m : List (String × α)) (x : String)
    (h : lookupS m x = none) : ∀ p ∈ m, p.1 ≠ x := by
  induction m with
  | nil => simp
  | cons p rest ih =>
    obtain ⟨k, w⟩ := p
    by_cases hk : k = x
    · simp [lookupS, hk] at h
    · intro q hq
      rcases List.mem_cons.mp hq with hq | hq
      · subst hq; exact hk
      · exact ih (by simpa [lookupS, hk] using h) q hq

theorem roundHalfEven_le (q : ℚ) (n : ℤ) (h : q ≤ (n : ℚ)) : roundHalfEven q ≤ n := by
  have hfl : ⌊q⌋ ≤ n := by
    have h2 := Int.floor_le_floor h
    rwa [Int.floor_intCast] at h2
  unfold roundHalfEven
  dsimp only
  split_ifs with h1 h2 h3
  · exact hfl
  · have hlt : (⌊q⌋ : ℚ) < q := by
      have h4 : (1:ℚ)/2 ≤ q - ⌊q⌋ := le_of_not_lt h1
      linarith
    have hltn : ⌊q⌋ < n := by exact_mod_cast hlt.trans_le h
    omega
  · exact hfl
  · have hlt : (⌊q⌋ : ℚ) < q := by
      have h4 : (1:ℚ)/2 ≤ q - ⌊q⌋ := le_of_not_lt h1
      linarith
    have hltn : ⌊q⌋ < n := by exact_mod_cast hlt.trans_le h
    omega

theorem round2_le_100 (q : ℚ) (h : q ≤ 100) : round2 q ≤ 100 := by
  have h1 : q * 100 ≤ ((10000 : ℤ) : ℚ) := by push_cast; nlinarith
  have h2 : roundHalfEven (q * 100) ≤ 10000 := roundHalfEven_le _ _ h1
  unfold round2
  rw [div_le_iff₀ (by norm_num : (0:ℚ) < 100)]
  exact_mod_cast h2

/-- The explicit field-by-field form of the message fold update. -/
theorem msgUpdate_eq (e : Msg) (aty : String) (s : Stats) :
    msgUpdate e aty s =
      { s with
        type := aty
        msgs := s.msgs + 1
        conv := match msgConvId e with | some c => insert c s.conv | none => s.conv
        cust := match msgCustId e with | some c => insert c s.cust | none => s.cust
        resp_times := match (msgRespBT e).asNum with
          | some q => s.resp_times ++ [q]
          | none => s.resp_times
        shortcuts := if (msgShortcutVal e).truthy then s.shortcuts + 1 else s.shortcuts } := by
  unfold msgUpdate
  rcases msgConvId e <;> rcases msgCustId e <;> rcases (msgRespBT e).asNum <;>
    dsimp <;> split_ifs <;> rfl

/-- A fold leaves the bucket of an id alone when no step of the fold touches
that id. -/
theorem lookupS_foldl_eq {β : Type} (step : List (String × Stats) → β → List (String × Stats))
    (l : List β) (m : List (String × Stats)) (id : String)
    (h : ∀ m2 e, e ∈ l → lookupS (step m2 e) id = lookupS m2 id) :
    lookupS (l.foldl step m) id = lookupS m id := by
  induction l generalizing m with
  | nil => rfl
  | cons e rest ih =>
    rw [List.foldl_cons, ih _ (fun m2 e2 he2 => h m2 e2 (List.mem_cons_of_mem _ he2))]
    exact h m e (List.mem_cons_self _ _)

theorem stepMsg_lookup_eq (umap tmap : List String) (m : List (String × Stats))
    (e : Msg) (id : String) (h : ∀ p, msgOwner umap tmap e = some p → p.1 ≠ id) :
    lookupS (stepMsg umap tmap m e) id = lookupS m id := by
  unfold stepMsg
  cases hown : msgOwner umap tmap e with
  | none => rfl
  | some p =>
    obtain ⟨aid, aty⟩ := p
    exact lookupS_setS_ne _ _ _ _ (fun hx => h _ hown (hx ▸ rfl))

theorem stepConvDone_lookup_eq (umap tmap : List String) (m : List (String × Stats))
    (c : ConvDone) (id : String) (h : ∀ p, cdOwner umap tmap c = some p → p.1 ≠ id) :
    lookupS (stepConvDone umap tmap m c) id = lookupS m id := by
  unfold stepConvDone
  cases hown : cdOwner umap tmap c with
  | none => rfl
  | some p =>
    obtain ⟨aid, aty⟩ := p
    exact lookupS_setS_ne _ _ _ _ (fun hx => h _ hown (hx ▸ rfl))

theorem stepConvTime_lookup_eq (umap tmap : List String) (m : List (String × Stats))
    (e : ConvTime) (id : String) (h : ∀ p, ctWrite umap tmap e = some p → p.1 ≠ id) :
    lookupS (stepConvTime umap tmap m e) id = lookupS m id := by
  unfold stepConvTime
  cases hown : ctWrite umap tmap e with
  | none => rfl
  | some p =>
    obtain ⟨aid, aty, q⟩ := p
    exact lookupS_setS_ne _ _ _ _ (fun hx => h _ hown (hx ▸ rfl))

theorem stepFCR_lookup_eq (umap tmap : List String) (m : List (String × Stats))
    (c : ConvFD) (id : String) (h : ∀ p, fcrResolved umap tmap c = some p → p.1 ≠ id) :
    lookupS (stepFCR umap tmap m c) id = lookupS m id := by
  unfold stepFCR
  cases hown : fcrResolved umap tmap c with
  | none => rfl
  | some p =>
    obtain ⟨aid, aty, fd⟩ := p
    exact lookupS_setS_ne _ _ _ _ (fun hx => h _ hown (hx ▸ rfl))

theorem stepFR_lookup_eq (umap tmap : List String) (m : List (String × Stats))
    (c : ConvFR) (id : String) (h : ∀ p, frWrite umap tmap c = some p → p.1 ≠ id) :
    lookupS (stepFR umap tmap m c) id = lookupS m id := by
  unfold stepFR
  cases hown : frWrite umap tmap c with
  | none => rfl
  | some p =>
    obtain ⟨aid, aty, q⟩ := p
    exact lookupS_setS_ne _ _ _ _ (fun hx => h _ hown (hx ▸ rfl))

/-
  Claim theorems.
-/

/-- C1: for every entity id with an accumulator, each derived ratio and
average in the final report row (average handle time, average messages per
conversation and per customer, FCR rate, average and median response,
first-response and first-resolution times, shortcut percentage) equals 0
whenever its denominator count is zero or its sample sequence is empty; the
row builders are total functions on the rationals, so no division error or
NaN can arise.  Stated for the part_000 row builder on all its guarded
columns, and for the main.py row builder on its handle-time and FCR columns,
whose denominators are counts. -/
theorem c1_zero_denominator_policy (aid : String) (s : Stats) (t : StatsM) :
    (s.handle_times = [] → (buildRow aid s).avg_handle_time = 0) ∧
    (s.conv.card = 0 → (buildRow aid s).avg_msgs_per_conv = 0) ∧
    (s.cust.card = 0 → (buildRow aid s).avg_msgs_per_cust = 0) ∧
    (s.fcr_total = 0 → (buildRow aid s).fcr_rate_pct = 0) ∧
    (s.resp_times = [] → (buildRow aid s).avg_resp_time = 0) ∧
    (s.first_resp_times = [] →
      (buildRow aid s).avg_first_resp = 0 ∧ (buildRow aid s).med_first_resp = 0) ∧
    (s.first_resolution_times = [] →
      (buildRow aid s).avg_first_resolution = 0 ∧ (buildRow aid s).med_first_resolution = 0) ∧
    (s.msgs = 0 → (buildRow aid s).shortcut_pct = 0) ∧
    (t.conversations_done = 0 → (buildRowMain aid t).avg_handle_time = 0) ∧
    (t.conv_created_done = 0 → (buildRowMain aid t).fcr_rate_pct = 0) := by
  refine ⟨?_, ?_, ?_, ?_, ?_, ?_, ?_, ?_, ?_, ?_⟩ <;>
    intro h <;> simp [buildRow, buildRowMain, h]

/-- Witness for C1 at the all-zero accumulators. -/
theorem c1_witness :
    (buildRow "A" initStats).avg_handle_time = 0 ∧
    (buildRow "A" initStats).fcr_rate_pct = 0 ∧
    (buildRowMain "A" initStatsM).avg_handle_time = 0 := by
  obtain ⟨h1, -, -, h4, -, -, -, -, h9, -⟩ :=
    c1_zero_denominator_policy "A" initStats initStatsM
  exact ⟨h1 rfl, h4 rfl, h9 rfl⟩

/-- C2: attribution resolves in priority order: a createdBy relationship wins
with kind user; failing that, a flat createdBy key wins with kind user, so an
event carrying both an agent field and a createdByTeams field attributes to
the agent, never to a team; only when no agent field is present does the
first id of the createdByTeams relationship (or, failing that, of the flat
createdByTeams list) resolve with kind team; when neither resolves the
attribution is absent. -/
theorem c2_attribution_priority (item : Attrib) :
    (∀ i, item.relCreatedBy = some i → get_agent_or_team_id item = some (i, "user")) ∧
    (∀ i, item.relCreatedBy = none → item.flatCreatedBy = some i →
      get_agent_or_team_id item = some (i, "user")) ∧
    (∀ t ts, item.relCreatedBy = none → item.flatCreatedBy = none →
      item.relCreatedByTeams = some (t :: ts) →
      get_agent_or_team_id item = some (t, "team")) ∧
    (∀ t ts, item.relCreatedBy = none → item.flatCreatedBy = none →
      item.relCreatedByTeams = none → item.flatCreatedByTeams = some (t :: ts) →
      get_agent_or_team_id item = some (t, "team")) ∧
    (item.relCreatedBy = none → item.flatCreatedBy = none →
      (item.relCreatedByTeams = some [] ∨ (item.relCreatedByTeams = none ∧
        (item.flatCreatedByTeams = none ∨ item.flatCreatedByTeams = some []))) →
      get_agent_or_team_id item = none) := by
  refine ⟨?_, ?_, ?_, ?_, ?_⟩
  · intro i h; simp [get_agent_or_team_id, h]
  · intro i h1 h2; simp [get_agent_or_team_id, h1, h2]
  · intro t ts h1 h2 h3; simp [get_agent_or_team_id, h1, h2, h3]
  · intro t ts h1 h2 h3 h4; simp [get_agent_or_team_id, h1, h2, h3, h4]
  · intro h1 h2 h3
    rcases h3 with h3 | ⟨h3, h4⟩
    · simp [get_agent_or_team_id, h1, h2, h3]
    · rcases h4 with h4 | h4 <;> simp [get_agent_or_team_id, h1, h2, h3, h4]

/-- Witness for C2: a record carrying both a createdBy relationship and a
createdByTeams relationship attributes to the agent. -/
theorem c2_witness :
    get_agent_or_team_id
      { relCreatedBy := some "A", flatCreatedBy := none
        relCreatedByTeams := some ["T1", "T2"], flatCreatedByTeams := none } =
      some ("A", "user") :=
  (c2_attribution_priority _).1 "A" rfl

/-- C3: the claim states that an event whose owner is unknown to the entity
directory is silently dropped by every fold and that no fold step aborts.
This holds in src/unnamed/part_000, but src/main.py contradicts it: in its
first-response fold the responder id is used to index the plain dict
agent_stats without a directory check, so a conversation whose first outbound
response was created by an id outside the directory raises KeyError and
aborts the aggregation pass.  This theorem evaluates the embedded main.py
pass at such an input: directory ["A1"], an inbound customer message at time
1 and an outbound response by the unknown id "BOT" at time 2 in conversation
"C1". -/
theorem c3_unknown_owner_keyerror :
    runMain ["A1"] [frMsgCustomer, frMsgBot] [] [frConvC1] [] =
      Except.error "KeyError: BOT" := by rfl

/-- C4 counterexample: in src/main.py the accumulators are pre-created for
every directory agent (lines 288-301) and the CSV loop iterates all of them,
so with every event stream empty the directory agent "A1", which has zero
contributing events, still appears as a row in the output table — refuting
the claim that such entities never appear as rows. -/
theorem c4_counterexample :
    reportMain ["A1"] [] [] [] [] =
      Except.ok [{ id := "A1", messages_sent := 0, conv_ct := 0
                   conversations_done := 0, cust_ct := 0, avg_handle_time := 0
                   avg_msgs_per_conv := 0, avg_msgs_per_cust := 0, fcr_rate_pct := 0
                   avg_first_resp := 0, med_first_resp := 0, avg_first_resolution := 0
                   med_first_resolution := 0, messages_shortcut := 0, shortcut_pct := 0 }] := by
  simp only [reportMain, runMain, initAgentStats]
  norm_num [buildRowMain, initStatsM, round2, roundHalfEven]
  rfl

/-- C4 amended: in the defaultdict variants (src/unnamed/part_000 and
main2.py) accumulators are created lazily, only on the first contributing
event, and the report has one row per accumulator entry; hence an entity to
which no event of any stream contributes has no accumulator and never appears
as a row.  In main.py the accumulators are instead pre-created for every
directory agent, and every directory agent appears as a row even with zero
events (see the counterexample). -/
theorem c4_lazy_accumulators (umap tmap : List String) (id : String)
    (msgs : List Msg) (cds : List ConvDone) (cts : List ConvTime)
    (fds : List ConvFD) (frs : List ConvFR)
    (h1 : ∀ e ∈ msgs, ∀ p, msgOwner umap tmap e = some p → p.1 ≠ id)
    (h2 : ∀ c ∈ cds, ∀ p, cdOwner umap tmap c = some p → p.1 ≠ id)
    (h3 : ∀ e ∈ cts, ∀ p, ctWrite umap tmap e = some p → p.1 ≠ id)
    (h4 : ∀ c ∈ fds, ∀ p, fcrResolved umap tmap c = some p → p.1 ≠ id)
    (h5 : ∀ c ∈ frs, ∀ p, frWrite umap tmap c = some p → p.1 ≠ id) :
    lookupS (runPart000 umap tmap msgs cds cts fds frs) id = none ∧
    ∀ r ∈ reportPart000 umap tmap msgs cds cts fds frs, r.id ≠ id := by
  have hnone : lookupS (runPart000 umap tmap msgs cds cts fds frs) id = none := by
    unfold runPart000
    rw [lookupS_foldl_eq _ _ _ _ (fun m2 e he => stepFR_lookup_eq umap tmap m2 e id (h5 e he)),
      lookupS_foldl_eq _ _ _ _ (fun m2 e he => stepFCR_lookup_eq umap tmap m2 e id (h4 e he)),
      lookupS_foldl_eq _ _ _ _ (fun m2 e he => stepConvTime_lookup_eq umap tmap m2 e id (h3 e he)),
      lookupS_foldl_eq _ _ _ _ (fun m2 e he => stepConvDone_lookup_eq umap tmap m2 e id (h2 e he)),
      lookupS_foldl_eq _ _ _ _ (fun m2 e he => stepMsg_lookup_eq umap tmap m2 e id (h1 e he))]
    rfl
  refine ⟨hnone, ?_⟩
  intro r hr
  unfold reportPart000 at hr
  obtain ⟨p, hp, hpr⟩ := List.mem_map.mp hr
  have hid : r.id = p.1 := by rw [← hpr]; rfl
  rw [hid]
  exact lookupS_none_forall _ _ hnone p hp

/-- Witness for C4 at a concrete input: a message stream contributing only to
"A" leaves the unrelated id "Z" without an accumulator and without a row. -/
theorem c4_witness :
    lookupS (runPart000 ["A"] [] [msgConvC1] [] [] [] []) "Z" = none ∧
    ∀ r ∈ reportPart000 ["A"] [] [msgConvC1] [] [] [] [], r.id ≠ "Z" := by
  refine c4_lazy_accumulators ["A"] [] "Z" [msgConvC1] [] [] [] [] ?_ ?_ ?_ ?_ ?_ <;>
    intro e he p hp <;> simp at he
  subst he
  rw [show msgOwner ["A"] [] msgConvC1 = some ("A", "user") from rfl] at hp
  cases hp
  decide

/-- C5 counterexample: the claim states that a kind conflict is detected,
surfaced with a warning, and resolved with the first-seen kind winning.  In
the code every contributing event silently assigns its own kind to the
accumulator; there is no conflict branch at all.  With the id "X" present in
both directories, a message stream attributing "X" as user followed by a
conversation-time stream attributing "X" as team leaves the final kind
"team" — the last-seen kind — whereas the message-only run shows the
first-seen kind was "user"; hence the first-seen kind does not win and
nothing is flagged. -/
theorem c5_counterexample :
    (lookupS (runPart000 ["X"] ["X"] [msgFromX] [] [convTimeTeamX] [] []) "X").map
        (fun s => s.type) = some "team" ∧
    (lookupS (runPart000 ["X"] ["X"] [msgFromX] [] [] [] []) "X").map
        (fun s => s.type) = some "user" := by
  constructor <;> rfl

/-- C5 amended: on a kind conflict the implementation silently overwrites:
each contributing event sets the kind of the accumulator of the entity it
resolves to, to its own resolved kind, regardless of the kind stored before,
so the last-seen kind wins and no warning is produced (no conflict-detection
branch exists in the fold).  Stated for the message step and the
conversation-time step, the two steps the claim cites. -/
theorem c5_kind_overwrite (umap tmap : List String) (m : List (String × Stats)) :
    (∀ e : Msg, ∀ aid aty, msgOwner umap tmap e = some (aid, aty) →
      (lookupS (stepMsg umap tmap m e) aid).map (fun s => s.type) = some aty) ∧
    (∀ e : ConvTime, ∀ aid aty q, ctWrite umap tmap e = some (aid, aty, q) →
      (lookupS (stepConvTime umap tmap m e) aid).map (fun s => s.type) = some aty) := by
  constructor
  · intro e aid aty h
    unfold stepMsg
    rw [h, lookupS_setS_self]
    simp [msgUpdate_eq]
  · intro e aid aty q h
    unfold stepConvTime
    rw [h, lookupS_setS_self]
    simp

/-- Witness for C5: the conversation-time step stamps kind team onto an
accumulator that currently holds kind user. -/
theorem c5_witness :
    (lookupS (stepConvTime ["X"] ["X"] [("X", initStats)] convTimeTeamX) "X").map
        (fun s => s.type) = some "team" :=
  (c5_kind_overwrite ["X"] ["X"] [("X", initStats)]).2 convTimeTeamX "X" "team" 5 rfl

/-- C6 counterexample: the claim states that the reported average handle time
is the handle-time sum divided by conversations_done, and 0 when
conversations_done is 0.  In src/unnamed/part_000 the column is instead the
mean of the handle-time samples: an entity with two done conversations and a
single handle-time sample of 10 reports 10, not round2 (10 / 2) = 5. -/
theorem c6_counterexample :
    (lookupS (runPart000 ["A"] [] [] [convDoneByA, convDoneByA] [convTimeByA] [] []) "A").map
        (fun s => ((buildRow "A" s).avg_handle_time, s.conv_done)) = some (10, 2) ∧
    round2 (10 / 2) = 5 := by
  constructor
  · norm_num [runPart000, stepConvDone, stepConvTime, cdOwner, ctWrite, get_agent_or_team_id,
      getS, setS, lookupS, buildRow, meanQ, round2, roundHalfEven, initStats,
      convDoneByA, convTimeByA, attribFlatA]
  · norm_num [round2, roundHalfEven]

/-- C6 amended: in main.py (and main2.py, which shares the formula) the
average handle time is the accumulated handle-time sum divided by
conversations_done, 0 when that count is 0; in src/unnamed/part_000 it is the
rounded mean of the handle-time samples — denominator the number of samples —
0 when the sample list is empty, and independent of conversations_done. -/
theorem c6_handle_time_denominators (aid : String) (s : Stats) (t : StatsM) (n : ℕ) :
    ((buildRow aid { s with conv_done := n }).avg_handle_time =
      (buildRow aid s).avg_handle_time) ∧
    (s.handle_times = [] → (buildRow aid s).avg_handle_time = 0) ∧
    (s.handle_times ≠ [] → (buildRow aid s).avg_handle_time =
      round2 (s.handle_times.sum / (s.handle_times.length : ℚ))) ∧
    (t.conversations_done = 0 → (buildRowMain aid t).avg_handle_time = 0) ∧
    (t.conversations_done ≠ 0 → (buildRowMain aid t).avg_handle_time =
      round2 (t.total_handle_time / (t.conversations_done : ℚ))) := by
  refine ⟨?_, ?_, ?_, ?_, ?_⟩ <;> try intro h
  · simp [buildRow]
  · simp [buildRow, h]
  · simp [buildRow, h, meanQ]
  · simp [buildRowMain, h]
  · simp [buildRowMain, h]

/-- Witness for C6 at concrete accumulators: one sample of 10 with
conversations_done rewritten to 7 still reports 10, and a main.py accumulator
with sum 10 over 2 done conversations reports 5. -/
theorem c6_witness :
    (buildRow "A" { initStats with handle_times := [10], conv_done := 7 }).avg_handle_time =
      round2 ((10 : ℚ) / 1) ∧
    (buildRowMain "A"
        { initStatsM with total_handle_time := 10, conversations_done := 2 }).avg_handle_time =
      round2 ((10 : ℚ) / 2) := by
  constructor
  · have h := (c6_handle_time_denominators "A"
      { initStats with handle_times := [10], conv_done := 7 } initStatsM 7).2.2.1
    simpa using h (by simp)
  · have h := (c6_handle_time_denominators "A" initStats
      { initStatsM with total_handle_time := 10, conversations_done := 2 } 0).2.2.2.2
    simpa using h (by simp)

/-- C7: in the FCR pass, every first-done event with a directory-known owner
increments fcr_eligible (fcr_total in the source) by exactly 1, and
additionally increments fcr_hits by 1 exactly when the hit criterion holds
(status done, direction inbound, message count positive, reopen count at most
0, no merge target); and the concrete scenario of two first-done events for
agent "A2", one qualifying and one not, yields fcr_eligible 2, fcr_hits 1 and
an FCR rate of 50. -/
theorem c7_fcr_fold (umap tmap : List String) (m : List (String × Stats))
    (c : ConvFD) (aid aty : String) (fd : FD)
    (h : fcrResolved umap tmap c = some (aid, aty, fd)) :
    ((lookupS (stepFCR umap tmap m c) aid).map (fun s => (s.fcr_total, s.fcr_hits)) =
      some ((getS m aid).fcr_total + 1,
        (getS m aid).fcr_hits + (if fcrHitCond c then 1 else 0))) ∧
    ((lookupS (runPart000 ["A2"] [] [] [] [] [fcrScenarioHit, fcrScenarioMiss] []) "A2").map
        (fun s => (s.fcr_total, s.fcr_hits, (buildRow "A2" s).fcr_rate_pct)) =
      some (2, 1, 50)) := by
  constructor
  · unfold stepFCR
    rw [h, lookupS_setS_self]
    rcases h2 : fd.businessTime.asNum with _ | q <;>
      by_cases h3 : fcrHitCond c <;> simp [fcrUpdate, h2, h3]
  · norm_num +decide [runPart000, stepFCR, fcrResolved, fdOf, fcrOwner, fcrUpdate, fcrHitCond,
      fcrMessageCount, fcrReopenCount, getS, setS, lookupS, buildRow, round2, roundHalfEven,
      initStats, optTruthy, pyOr, pyOrS, valGt0, valLe0, Val.truthy, get_agent_or_team_id,
      fcrScenarioHit, fcrScenarioMiss, fdAgentA2, Val.asNum]

/-- Witness for C7: folding the qualifying scenario event into the empty
accumulator map gives one eligible conversation and one hit for "A2". -/
theorem c7_witness :
    (lookupS (stepFCR ["A2"] [] [] fcrScenarioHit) "A2").map
        (fun s => (s.fcr_total, s.fcr_hits)) = some (1, 1) := by
  have h := (c7_fcr_fold ["A2"] [] [] fcrScenarioHit "A2" "user" fdAgentA2 (by rfl)).1
  have hc : fcrHitCond fcrScenarioHit = true := by decide
  simpa [getS, lookupS, initStats, hc] using h

/-- C8: the unique-conversation and unique-customer counters count distinct
ids: a qualifying outbound message carrying a conversation id (or customer
id) already contributed to the same entity leaves the respective set, and
hence the reported count, unchanged. -/
theorem c8_distinct_sets (umap tmap : List String) (m : List (String × Stats))
    (e : Msg) (aid aty : String) (s : Stats)
    (hown : msgOwner umap tmap e = some (aid, aty))
    (hs : lookupS m aid = some s) :
    (∀ c, msgConvId e = some c → c ∈ s.conv →
      (lookupS (stepMsg umap tmap m e) aid).map (fun t => t.conv.card) =
        some s.conv.card) ∧
    (∀ c, msgCustId e = some c → c ∈ s.cust →
      (lookupS (stepMsg umap tmap m e) aid).map (fun t => t.cust.card) =
        some s.cust.card) := by
  have hget : getS m aid = s := by simp [getS, hs]
  constructor
  · intro c hc hmem
    unfold stepMsg
    rw [hown, lookupS_setS_self]
    simp [msgUpdate_eq, hget, hc, Finset.insert_eq_self.mpr hmem]
  · intro c hc hmem
    unfold stepMsg
    rw [hown, lookupS_setS_self]
    simp [msgUpdate_eq, hget, hc, Finset.insert_eq_self.mpr hmem]

/-- Witness for C8: a second message in conversation "C1" from "A", whose set
already holds "C1", leaves the distinct-conversation count at 1. -/
theorem c8_witness :
    (lookupS (stepMsg ["A"] []
        [("A", { initStats with conv := {"C1"}, cust := {"U1"} })] msgConvC1) "A").map
      (fun t => t.conv.card) = some 1 := by
  have h := (c8_distinct_sets ["A"] []
    [("A", { initStats with conv := {"C1"}, cust := {"U1"} })] msgConvC1 "A" "user"
    { initStats with conv := {"C1"}, cust := {"U1"} } rfl rfl).1 "C1" rfl
    (Finset.mem_singleton_self "C1")
  simpa using h

/-- C9 counterexample: the claim states that a falsy-but-present value such
as 0 found at an earlier lookup strategy is returned and does not fall
through.  In the code the responseBusinessTime lookup is a Python or-chain,
so a flat value of 0 is treated as absent and the attributes value 5 is taken
instead: folding such a message appends the sample 5, not 0. -/
theorem c9_counterexample :
    (lookupS (stepMsg ["A"] [] [] msgRespBTZero) "A").map (fun s => s.resp_times) =
      some [5] := by rfl

/-- C9 amended: the or-chain lookups treat every Python-falsy value (None, 0,
False, empty string, empty list) as absent and fall through to the next
strategy — a truthy first operand is returned unchanged, a falsy one (such as
the number 0) is not; the only key-presence lookup is the auto flag, which
returns a present flat value without falling through even when it is falsy. -/
theorem c9_falsy_fallthrough (e : Msg) :
    (e.flatRespBT = Val.num 0 → msgRespBT e = e.attrRespBT) ∧
    ((e.flatRespBT).truthy = true → msgRespBT e = e.flatRespBT) ∧
    (e.autoPresent = true → msgAuto e = e.flatAuto) := by
  refine ⟨?_, ?_, ?_⟩
  · intro h; simp [msgRespBT, pyOr, h, Val.truthy]
  · intro h; simp [msgRespBT, pyOr, h]
  · intro h; simp [msgAuto, h]

/-- Witness for C9: on the concrete message with flat responseBusinessTime 0
and attributes value 5, the lookup returns the attributes value. -/
theorem c9_witness : msgRespBT msgRespBTZero = Val.num 5 := by
  have h := (c9_falsy_fallthrough msgRespBTZero).1 rfl
  simpa [msgRespBTZero] using h

/-- C10: after every step of the outbound-message fold, every accumulator
satisfies shortcut_messages at most messages_sent — the shortcut counter is
incremented at most once per message and only in an iteration that also
increments the message count — hence the invariant holds of every accumulator
produced by the fold from the empty map, and the reported shortcut percentage
never exceeds 100. -/
theorem c10_shortcut_bound :
    (∀ (umap tmap : List String) (e : Msg) (m : List (String × Stats)),
      (∀ id s, lookupS m id = some s → s.shortcuts ≤ s.msgs) →
      ∀ id s, lookupS (stepMsg umap tmap m e) id = some s → s.shortcuts ≤ s.msgs) ∧
    (∀ (umap tmap : List String) (msgs : List Msg) (id : String) (s : Stats),
      lookupS (msgs.foldl (stepMsg umap tmap) []) id = some s → s.shortcuts ≤ s.msgs) ∧
    (∀ (aid : String) (s : Stats), s.shortcuts ≤ s.msgs →
      (buildRow aid s).shortcut_pct ≤ 100) := by
  have hstep : ∀ (umap tmap : List String) (e : Msg) (m : List (String × Stats)),
      (∀ id s, lookupS m id = some s → s.shortcuts ≤ s.msgs) →
      ∀ id s, lookupS (stepMsg umap tmap m e) id = some s → s.shortcuts ≤ s.msgs := by
    intro umap tmap e m hinv id s hl
    unfold stepMsg at hl
    cases hown : msgOwner umap tmap e with
    | none => rw [hown] at hl; exact hinv id s hl
    | some p =>
      obtain ⟨aid, aty⟩ := p
      rw [hown] at hl
      by_cases hid : id = aid
      · subst hid
        rw [lookupS_setS_self] at hl
        obtain rfl := (Option.some.inj hl).symm
        have hbase : (getS m id).shortcuts ≤ (getS m id).msgs := by
          unfold getS
          cases hb : lookupS m id with
          | none => simp [initStats]
          | some s0 => simpa using hinv id s0 hb
        rw [msgUpdate_eq]
        dsimp
        split_ifs <;> omega
      · rw [lookupS_setS_ne _ _ _ _ hid] at hl
        exact hinv id s hl
  refine ⟨hstep, ?_, ?_⟩
  · intro umap tmap msgs
    have hgen : ∀ (m : List (String × Stats)),
        (∀ id s, lookupS m id = some s → s.shortcuts ≤ s.msgs) →
        ∀ id s, lookupS (msgs.foldl (stepMsg umap tmap) m) id = some s →
          s.shortcuts ≤ s.msgs := by
      induction msgs with
      | nil => intro m h; exact h
      | cons e rest ih =>
        intro m h
        rw [List.foldl_cons]
        exact ih _ (hstep umap tmap e m h)
    exact hgen [] (by intro id s h2; simp [lookupS] at h2)
  · intro aid s hle
    unfold buildRow
    dsimp
    split_ifs with hm
    · norm_num
    · apply round2_le_100
      have h1 : (s.shortcuts : ℚ) ≤ (s.msgs : ℚ) := by exact_mod_cast hle
      have h2 : (0:ℚ) < (s.msgs : ℚ) := by
        have h4 := Nat.pos_of_ne_zero hm
        exact_mod_cast h4
      have h3 : (s.shortcuts : ℚ) / (s.msgs : ℚ) ≤ 1 := (div_le_one h2).mpr h1
      nlinarith

/-- Witness for C10: an accumulator with 1 shortcut message out of 2 messages
reports a shortcut percentage of at most 100. -/
theorem c10_witness :
    (buildRow "A" { initStats with msgs := 2, shortcuts := 1 }).shortcut_pct ≤ 100 :=
  c10_shortcut_bound.2.2 "A" _ (by norm_num)

end Kustomer
